import Mathlib

/-!
Shallow embedding of the token-ledger core of the emoji-gen repository.

Source files embedded:
  - src/server/database.js : getUserTokens, deductToken, addTokens,
    logTokenTransaction, plus the users / token_transactions tables.
  - src/server/server.js : the POST /api/generate-emoji handler (token
    checks, deduction, the gemini-unavailable early return, and the
    catch-block refund path).

Modelling conventions:
  - The users table is an association list from email to Account; the
    email column is UNIQUE in the schema, and rows are only inserted by
    getUserTokens when no row for that email exists.
  - The token_transactions table is an append-only list of Txn.
  - createdAt / updatedAt timestamp columns carry no ledger content and
    are omitted.
  - Every database write that the source performs as a fire-and-forget
    or separately-committed INSERT into token_transactions takes an
    explicit logOk flag: logOk = true models the INSERT succeeding,
    logOk = false models it failing (in the source the failure is
    swallowed by a .catch, or rejects the addTokens promise after the
    balance UPDATE has already been applied).
-/

namespace EmojiGen

/-- The type column of token_transactions:
CHECK(type IN (purchase, usage, refund, bonus)). -/
inductive TxKind where
  | purchase
  | usage
  | refund
  | bonus
  deriving DecidableEq, Repr

/-- One row of the token_transactions table (timestamps omitted). -/
structure Txn where
  userEmail : String
  kind : TxKind
  amount : Int
  description : String
  stripeSessionId : Option String
  deriving DecidableEq, Repr

/-- One row of the users table, keyed elsewhere by email
(timestamps omitted). -/
structure Account where
  balance : Int
  totalUsed : Int
  deriving DecidableEq, Repr

/-- SELECT * FROM users WHERE email = ? on an association list. -/
def lookupAcc : List (String × Account) → String → Option Account
  | [], _ => none
  | (e, a) :: rest, email =>
      if e = email then some a else lookupAcc rest email

/-- UPDATE users SET ... WHERE email = ?: applies f to every row whose
email matches (the schema makes email UNIQUE, so at most one in any
reachable state). -/
def updateAcc (f : Account → Account) :
    List (String × Account) → String → List (String × Account)
  | [], _ => []
  | (e, a) :: rest, email =>
      (e, if e = email then f a else a) :: updateAcc f rest email

/-- The two tables of the SQLite database. -/
structure DB where
  users : List (String × Account)
  txns : List Txn
  deriving DecidableEq, Repr

def DB.getUser (db : DB) (email : String) : Option Account :=
  lookupAcc db.users email

def emptyDB : DB := { users := [], txns := [] }

/-- database.js logTokenTransaction: INSERT INTO token_transactions
(user_email, type, amount, description, stripe_session_id). -/
def logTokenTransaction (db : DB) (userEmail : String) (kind : TxKind)
    (amount : Int) (description : String) (stripeSessionId : Option String) :
    DB :=
  { db with
      txns := db.txns ++
        [{ userEmail := userEmail, kind := kind, amount := amount,
           description := description, stripeSessionId := stripeSessionId }] }

/-- database.js getUserTokens: SELECT the row; if present resolve its
balance and totalUsed; otherwise INSERT (email, 25, 0), fire-and-forget
a bonus transaction of +25 (logOk models whether that INSERT succeeds;
its failure is swallowed by .catch(console.error)), and resolve
(25, 0). Returns the resolved (balance, totalUsed) and the database. -/
def getUserTokens (logOk : Bool) (db : DB) (email : String) :
    (Int × Int) × DB :=
  match lookupAcc db.users email with
  | some row => ((row.balance, row.totalUsed), db)
  | none =>
      let db1 : DB := { db with users := db.users ++ [(email, { balance := 25, totalUsed := 0 })] }
      let db2 :=
        if logOk then
          logTokenTransaction db1 email TxKind.bonus 25
            "Welcome bonus - 25 free tokens" none
        else db1
      ((25, 0), db2)

/-- database.js deductToken: BEGIN; SELECT tokens WHERE email = ?; if no
row or tokens <= 0, ROLLBACK and resolve false; else UPDATE users SET
tokens = tokens - 1, total_used = total_used + 1 WHERE email = ? AND
tokens > 0; if this.changes = 0, ROLLBACK and resolve false; else
COMMIT, then fire-and-forget a usage transaction of -1 (logOk models
whether that INSERT succeeds; failure is swallowed by
.catch(console.error) and the already-committed UPDATE stays), resolve
true. In this sequential model nothing runs between the SELECT and the
UPDATE, so the guarded UPDATE always reports changes = 1 on this path. -/
def deductToken (logOk : Bool) (db : DB) (email : String) : Bool × DB :=
  match lookupAcc db.users email with
  | none => (false, db)
  | some row =>
      if row.balance ≤ 0 then (false, db)
      else
        let changes : Nat := if 0 < row.balance then 1 else 0
        if changes = 0 then (false, db)
        else
          let db1 : DB :=
            { db with
                users := updateAcc
                  (fun a => { a with balance := a.balance - 1,
                                     totalUsed := a.totalUsed + 1 })
                  db.users email }
          let db2 :=
            if logOk then
              logTokenTransaction db1 email TxKind.usage (-1)
                "Emoji generation" none
            else db1
          (true, db2)

/-- database.js addTokens: UPDATE users SET tokens = tokens + ? WHERE
email = ? (a silent no-op when no row matches; the UPDATE is not inside
any BEGIN/COMMIT), then logTokenTransaction with the hard-coded type
purchase, then getUserTokens to build the resolved value. If the log
INSERT fails (logOk = false) the promise rejects (resolved value none)
but the UPDATE has already been applied. -/
def addTokens (logOk : Bool) (db : DB) (email : String) (amount : Int)
    (description : String) (stripeSessionId : Option String) :
    Option (Int × Int) × DB :=
  let db1 : DB :=
    { db with
        users := updateAcc (fun a => { a with balance := a.balance + amount })
          db.users email }
  if logOk then
    let db2 := logTokenTransaction db1 email TxKind.purchase amount
      description stripeSessionId
    let r := getUserTokens logOk db2 email
    (some r.1, r.2)
  else
    (none, db1)

/-- Sum of the amount column over the transactions of one account. -/
def txnSum : List Txn → String → Int
  | [], _ => 0
  | t :: rest, email =>
      (if t.userEmail = email then t.amount else 0) + txnSum rest email

/-! ## Ledger operation sequences

One step per Accounting Service entry point of database.js, as invoked
by server.js: account creation (the first-touch path of getUserTokens),
deduct (deductToken) and credit (addTokens). Audit-log inserts succeed
(logOk = true); their failure modes are treated separately. -/

inductive LedgerOp where
  | create (email : String)
  | deduct (email : String)
  | credit (email : String) (amount : Int) (description : String)
      (stripeSessionId : Option String)
  deriving DecidableEq, Repr

def applyOp (db : DB) : LedgerOp → DB
  | LedgerOp.create e => (getUserTokens true db e).2
  | LedgerOp.deduct e => (deductToken true db e).2
  | LedgerOp.credit e amount d sid => (addTokens true db e amount d sid).2

def runOps (db : DB) : List LedgerOp → DB
  | [] => db
  | op :: rest => runOps (applyOp db op) rest

/-- A credit is only issued against an account row that already exists
(the shape the deployed flows produce: the account is created by the
first balance query before any purchase or refund can target it). -/
def creditOk (db : DB) : LedgerOp → Bool
  | LedgerOp.credit e _ _ _ => (lookupAcc db.users e).isSome
  | _ => true

/-- Checks, by simulation, that every credit in the sequence satisfies
creditOk at the point it runs. -/
def creditsSafe (db : DB) : List LedgerOp → Bool
  | [] => true
  | op :: rest => creditOk db op && creditsSafe (applyOp db op) rest

/-! ## The POST /api/generate-emoji handler of server.js

Request inputs that matter to the ledger: whether an image file or a
nonempty description was supplied (hasInput), the userEmail field,
whether the GeminiService constructor succeeded at startup
(geminiAvailable, server.js lines 31-37), and whether the
geminiService.generateEmoji call throws (geminiFails). -/

/-- The responses the handler can produce. crashNoResponse models the
catch block itself throwing: in the source, userEmail is declared with
const inside the try block, so it is not in scope in the catch block
and evaluating the guard `if (userEmail)` there raises a
ReferenceError; the refund code below it is dead and the handler
promise rejects without res.status(...).json(...) being called. -/
inductive GenResp where
  | badRequest
  | insufficientTokens (tokensNeeded : Bool)
  | geminiUnavailable
  | ok (tokensRemaining : Int)
  | crashNoResponse
  deriving DecidableEq, Repr

/-- HTTP status code actually sent for each response shape
(none: the handler never sends a response). -/
def GenResp.status : GenResp → Option Nat
  | GenResp.badRequest => some 400
  | GenResp.insufficientTokens _ => some 402
  | GenResp.geminiUnavailable => some 500
  | GenResp.ok _ => some 200
  | GenResp.crashNoResponse => none

structure GenOutcome where
  resp : GenResp
  db : DB
  geminiCalled : Bool
  deriving DecidableEq, Repr

/-- server.js app.post(/api/generate-emoji), lines 103-182, sequential
model with audit-log inserts succeeding:
  1. 400 if neither file nor description, 400 if no userEmail;
  2. getUserTokens; 402 {tokensNeeded: true} if balance <= 0;
  3. deductToken; 402 {tokensNeeded: true} if it resolves false;
  4. early `return res.status(500)` if geminiService was never
     initialized (no throw, so the catch block never runs and no refund
     is attempted);
  5. call geminiService.generateEmoji; on throw the catch block runs
     and itself raises a ReferenceError on `userEmail` (block-scoped to
     the try), so no refund and no response (crashNoResponse);
  6. on success, getUserTokens again and respond 200 with
     tokensRemaining. -/
def generateEmoji (db : DB) (hasInput : Bool) (userEmail : Option String)
    (geminiAvailable : Bool) (geminiFails : Bool) : GenOutcome :=
  if !hasInput then { resp := GenResp.badRequest, db := db, geminiCalled := false }
  else
    match userEmail with
    | none => { resp := GenResp.badRequest, db := db, geminiCalled := false }
    | some email =>
        let r1 := getUserTokens true db email
        if r1.1.1 ≤ 0 then
          { resp := GenResp.insufficientTokens true, db := r1.2, geminiCalled := false }
        else
          let r2 := deductToken true r1.2 email
          if !r2.1 then
            { resp := GenResp.insufficientTokens true, db := r2.2, geminiCalled := false }
          else if !geminiAvailable then
            { resp := GenResp.geminiUnavailable, db := r2.2, geminiCalled := false }
          else if geminiFails then
            { resp := GenResp.crashNoResponse, db := r2.2, geminiCalled := true }
          else
            let r3 := getUserTokens true r2.2 email
            { resp := GenResp.ok r3.1.1, db := r3.2, geminiCalled := true }

/-! ## Interleaving model of two concurrent deductToken calls

deductToken touches shared state in exactly two SQL statements: the
SELECT of the balance and the guarded UPDATE (tokens = tokens - 1,
total_used = total_used + 1 WHERE email = ? AND tokens > 0, reporting
this.changes). The model below interleaves two instances of the call
against the same row, granting only per-statement atomicity — weaker
than the BEGIN/COMMIT the source opens, so any property of all
interleavings here also holds of the serialized executions the storage
engine produces. -/

/-- The shared users row of the account both calls target. -/
structure Row where
  tokens : Int
  totalUsed : Int
  deriving DecidableEq, Repr

/-- One in-flight deductToken call: pc 0 = before the SELECT, pc 1 =
before the guarded UPDATE, pc 2 = resolved (result holds the resolved
boolean). -/
structure DThread where
  pc : Nat
  result : Option Bool
  deriving DecidableEq, Repr

/-- One atomic statement of deductToken against the shared row. -/
def dstep (r : Row) (t : DThread) : Row × DThread :=
  match t.pc with
  | 0 =>
      if r.tokens ≤ 0 then (r, { pc := 2, result := some false })
      else (r, { pc := 1, result := none })
  | 1 =>
      if 0 < r.tokens then
        ({ tokens := r.tokens - 1, totalUsed := r.totalUsed + 1 },
         { pc := 2, result := some true })
      else (r, { pc := 2, result := some false })
  | _ => (r, t)

/-- Run a schedule: true picks thread 1 for the next atomic statement,
false picks thread 2. -/
def runSched : List Bool → Row → DThread → DThread → Row × DThread × DThread
  | [], r, t1, t2 => (r, t1, t2)
  | b :: rest, r, t1, t2 =>
      if b then
        let s := dstep r t1
        runSched rest s.1 s.2 t2
      else
        let s := dstep r t2
        runSched rest s.1 t1 s.2

def boolLists : Nat → List (List Bool)
  | 0 => [[]]
  | n + 1 =>
      (boolLists n).map (List.cons true) ++ (boolLists n).map (List.cons false)

/-- Every interleaving of the two statements of each of two deductToken
calls: length-4 schedules giving each thread its two statements in
program order. -/
def schedules2 : List (List Bool) :=
  (boolLists 4).filter (fun s => s.count true = 2)

/-- Outcome check for one schedule started from balance 1: exactly one
call resolves true, the other false, and the final balance is 0. -/
def raceOk (s : List Bool) : Bool :=
  let out := runSched s { tokens := 1, totalUsed := 0 }
    { pc := 0, result := none } { pc := 0, result := none }
  out.1.tokens == 0 &&
    ((out.2.1.result == some true && out.2.2.result == some false) ||
     (out.2.1.result == some false && out.2.2.result == some true))

/-! ## Concrete states used by counterexamples and witnesses -/

/-- A user who already holds a row: the state the Stripe webhook sees
after the buyer has loaded the app at least once. -/
def webhookDb : DB :=
  { users := [("u", { balance := 25, totalUsed := 0 })], txns := [] }

/-- A user with five tokens left, transaction slice empty. -/
def genDb0 : DB :=
  { users := [("a@x.com", { balance := 5, totalUsed := 0 })], txns := [] }

/-- A user whose balance has run out. -/
def poorDb : DB :=
  { users := [("p", { balance := 0, totalUsed := 25 })], txns := [] }

/-- A short deployed-shape history: first balance query creates the
account, one generation deducts, one purchase credits. -/
def demoOps : List LedgerOp :=
  [LedgerOp.create "u", LedgerOp.deduct "u",
   LedgerOp.credit "u" 10 "Stripe purchase - 25 package" (some "s1")]

/-- The usage row deductToken logs after its COMMIT. -/
def usageRow (email : String) : Txn :=
  { userEmail := email, kind := TxKind.usage, amount := -1,
    description := "Emoji generation", stripeSessionId := none }

/-- The row addTokens logs, always with kind purchase. -/
def purchaseRow (email : String) (amount : Int) (d : String)
    (sid : Option String) : Txn :=
  { userEmail := email, kind := TxKind.purchase, amount := amount,
    description := d, stripeSessionId := sid }

/-- The bonus row getUserTokens logs when it creates the account. -/
def bonusRow (email : String) : Txn :=
  { userEmail := email, kind := TxKind.bonus, amount := 25,
    description := "Welcome bonus - 25 free tokens", stripeSessionId := none }

/-- The reconstructable-from-log property: every stored balance equals
the sum of the amount column over that account's transactions, and an
account with no row has no transactions. -/
def LedgerInv (db : DB) : Prop :=
  (∀ e a, lookupAcc db.users e = some a → a.balance = txnSum db.txns e) ∧
  (∀ e, lookupAcc db.users e = none → txnSum db.txns e = 0)

/-! ## Association-list and sum lemmas -/

theorem lookupAcc_updateAcc (f : Account → Account)
    (l : List (String × Account)) (e e' : String) :
    lookupAcc (updateAcc f l e) e' =
      if e' = e then (lookupAcc l e').map f else lookupAcc l e' := by
  induction l with
  | nil => simp [lookupAcc, updateAcc]
  | cons p rest ih =>
      obtain ⟨k, a⟩ := p
      by_cases h1 : k = e' <;> by_cases h2 : e' = e <;>
        simp_all [lookupAcc, updateAcc]

theorem lookupAcc_append_none (l₁ l₂ : List (String × Account)) (e : String)
    (h : lookupAcc l₁ e = none) :
    lookupAcc (l₁ ++ l₂) e = lookupAcc l₂ e := by
  induction l₁ with
  | nil => simp
  | cons p rest ih =>
      obtain ⟨k, a⟩ := p
      by_cases h1 : k = e <;> simp_all [lookupAcc]

theorem lookupAcc_append_some (l₁ l₂ : List (String × Account)) (e : String)
    (a : Account) (h : lookupAcc l₁ e = some a) :
    lookupAcc (l₁ ++ l₂) e = some a := by
  induction l₁ with
  | nil => simp [lookupAcc] at h
  | cons p rest ih =>
      obtain ⟨k, b⟩ := p
      by_cases h1 : k = e <;> simp_all [lookupAcc]

theorem lookupAcc_singleton (e e' : String) (a : Account) :
    lookupAcc [(e, a)] e' = if e = e' then some a else none := by
  simp [lookupAcc]

theorem txnSum_append (l₁ l₂ : List Txn) (e : String) :
    txnSum (l₁ ++ l₂) e = txnSum l₁ e + txnSum l₂ e := by
  induction l₁ with
  | nil => simp [txnSum]
  | cons t rest ih => simp [txnSum, ih, add_assoc]

theorem txnSum_singleton (t : Txn) (e : String) :
    txnSum [t] e = if t.userEmail = e then t.amount else 0 := by
  simp [txnSum]

/-! ## Characterization of each operation by the state it starts from -/

theorem getUserTokens_existing (ok : Bool) (db : DB) (e : String)
    (a : Account) (h : lookupAcc db.users e = some a) :
    getUserTokens ok db e = ((a.balance, a.totalUsed), db) := by
  simp [getUserTokens, h]

theorem getUserTokens_new (db : DB) (e : String)
    (h : lookupAcc db.users e = none) :
    getUserTokens true db e = ((25, 0),
      { users := db.users ++ [(e, { balance := 25, totalUsed := 0 })],
        txns := db.txns ++ [bonusRow e] }) := by
  simp [getUserTokens, h, logTokenTransaction, bonusRow]

theorem deductToken_no_row (ok : Bool) (db : DB) (e : String)
    (h : lookupAcc db.users e = none) :
    deductToken ok db e = (false, db) := by
  simp [deductToken, h]

theorem deductToken_nonpos (ok : Bool) (db : DB) (e : String) (a : Account)
    (h : lookupAcc db.users e = some a) (hle : a.balance ≤ 0) :
    deductToken ok db e = (false, db) := by
  simp [deductToken, h, hle]

theorem deductToken_pos (ok : Bool) (db : DB) (e : String) (a : Account)
    (h : lookupAcc db.users e = some a) (hpos : 0 < a.balance) :
    deductToken ok db e = (true,
      { users := updateAcc
          (fun x => { x with balance := x.balance - 1,
                             totalUsed := x.totalUsed + 1 }) db.users e,
        txns := if ok then db.txns ++ [usageRow e] else db.txns }) := by
  have hne : ¬ a.balance ≤ 0 := not_le.mpr hpos
  cases ok <;>
    simp [deductToken, h, hne, hpos, logTokenTransaction, usageRow]

theorem addTokens_existing (db : DB) (e : String) (amount : Int)
    (d : String) (sid : Option String) (a : Account)
    (h : lookupAcc db.users e = some a) :
    addTokens true db e amount d sid =
      (some (a.balance + amount, a.totalUsed),
       { users := updateAcc (fun x => { x with balance := x.balance + amount })
           db.users e,
         txns := db.txns ++ [purchaseRow e amount d sid] }) := by
  have hlook : lookupAcc (updateAcc
      (fun x => { x with balance := x.balance + amount }) db.users e) e =
      some { a with balance := a.balance + amount } := by
    rw [lookupAcc_updateAcc]
    simp [h]
  simp [addTokens, logTokenTransaction, purchaseRow, getUserTokens, hlook]

theorem addTokens_log_fails (db : DB) (e : String) (amount : Int)
    (d : String) (sid : Option String) :
    addTokens false db e amount d sid = (none,
      { db with
          users := updateAcc (fun x => { x with balance := x.balance + amount })
            db.users e }) := by
  simp [addTokens]

/-! ## Preservation of the reconstructable-from-log property -/

theorem ledgerInv_empty : LedgerInv emptyDB := by
  constructor
  · intro e a h
    simp [emptyDB, lookupAcc] at h
  · intro e _
    simp [emptyDB, txnSum]

theorem deductToken_pos_logged (db : DB) (e : String) (a : Account)
    (h : lookupAcc db.users e = some a) (hpos : 0 < a.balance) :
    deductToken true db e = (true,
      { users := updateAcc
          (fun x => { x with balance := x.balance - 1,
                             totalUsed := x.totalUsed + 1 }) db.users e,
        txns := db.txns ++ [usageRow e] }) := by
  rw [deductToken_pos true db e a h hpos]
  simp

theorem deductToken_pos_unlogged (db : DB) (e : String) (a : Account)
    (h : lookupAcc db.users e = some a) (hpos : 0 < a.balance) :
    deductToken false db e = (true,
      { users := updateAcc
          (fun x => { x with balance := x.balance - 1,
                             totalUsed := x.totalUsed + 1 }) db.users e,
        txns := db.txns }) := by
  rw [deductToken_pos false db e a h hpos]
  simp

theorem getUserTokens_new_unlogged (db : DB) (e : String)
    (h : lookupAcc db.users e = none) :
    getUserTokens false db e = ((25, 0),
      { db with
          users := db.users ++ [(e, { balance := 25, totalUsed := 0 })] }) := by
  simp [getUserTokens, h]

theorem ledgerInv_create (db : DB) (e : String) (h : LedgerInv db) :
    LedgerInv (applyOp db (LedgerOp.create e)) := by
  obtain ⟨hbal, hnone⟩ := h
  cases hl : lookupAcc db.users e with
  | some a =>
      simpa [applyOp, getUserTokens_existing true db e a hl] using ⟨hbal, hnone⟩
  | none =>
      rw [applyOp, getUserTokens_new db e hl]
      dsimp only
      constructor
      · intro e' a' h'
        cases hl' : lookupAcc db.users e' with
        | some a'' =>
            have he : e ≠ e' := by
              intro hee
              rw [hee, hl'] at hl
              exact Option.noConfusion hl
            rw [lookupAcc_append_some db.users _ e' a'' hl'] at h'
            have hinj := Option.some.inj h'
            subst hinj
            have hb := hbal e' a'' hl'
            simp only [txnSum_append, txnSum_singleton, bonusRow, if_neg he]
            omega
        | none =>
            rw [lookupAcc_append_none db.users _ e' hl',
              lookupAcc_singleton] at h'
            by_cases he : e = e'
            · rw [if_pos he] at h'
              have hinj := Option.some.inj h'
              subst hinj
              have hz := hnone e' (he ▸ hl)
              simp only [txnSum_append, txnSum_singleton, bonusRow, if_pos he]
              omega
            · rw [if_neg he] at h'
              exact Option.noConfusion h'
      · intro e' h'
        cases hl' : lookupAcc db.users e' with
        | some a'' =>
            rw [lookupAcc_append_some db.users _ e' a'' hl'] at h'
            exact Option.noConfusion h'
        | none =>
            rw [lookupAcc_append_none db.users _ e' hl',
              lookupAcc_singleton] at h'
            have he : ¬ e = e' := by
              intro hee
              rw [if_pos hee] at h'
              exact Option.noConfusion h'
            have hz := hnone e' hl'
            simp only [txnSum_append, txnSum_singleton, bonusRow, if_neg he]
            omega

theorem ledgerInv_deduct (db : DB) (e : String) (h : LedgerInv db) :
    LedgerInv (applyOp db (LedgerOp.deduct e)) := by
  obtain ⟨hbal, hnone⟩ := h
  cases hl : lookupAcc db.users e with
  | none => simpa [applyOp, deductToken_no_row true db e hl] using ⟨hbal, hnone⟩
  | some a =>
      by_cases hle : a.balance ≤ 0
      · simpa [applyOp, deductToken_nonpos true db e a hl hle] using ⟨hbal, hnone⟩
      · have hpos : 0 < a.balance := not_le.mp hle
        rw [applyOp, deductToken_pos_logged db e a hl hpos]
        dsimp only
        constructor
        · intro e' a' h'
          rw [lookupAcc_updateAcc] at h'
          by_cases he : e' = e
          · rw [if_pos he, he, hl] at h'
            have hinj := Option.some.inj h'
            subst hinj
            have hb := hbal e a hl
            simp only [txnSum_append, txnSum_singleton, usageRow, he]
            split_ifs with hc
            · omega
            · exact absurd trivial hc
          · rw [if_neg he] at h'
            have hb := hbal e' a' h'
            have he' : ¬ e = e' := fun hee => he hee.symm
            simp only [txnSum_append, txnSum_singleton, usageRow, if_neg he']
            omega
        · intro e' h'
          rw [lookupAcc_updateAcc] at h'
          by_cases he : e' = e
          · rw [if_pos he, he, hl] at h'
            simp at h'
          · rw [if_neg he] at h'
            have hz := hnone e' h'
            have he' : ¬ e = e' := fun hee => he hee.symm
            simp only [txnSum_append, txnSum_singleton, usageRow, if_neg he']
            omega

theorem ledgerInv_credit (db : DB) (e : String) (amount : Int) (d : String)
    (sid : Option String) (h : LedgerInv db)
    (hs : (lookupAcc db.users e).isSome) :
    LedgerInv (applyOp db (LedgerOp.credit e amount d sid)) := by
  obtain ⟨hbal, hnone⟩ := h
  obtain ⟨a, hl⟩ := Option.isSome_iff_exists.mp hs
  rw [applyOp, addTokens_existing db e amount d sid a hl]
  dsimp only
  constructor
  · intro e' a' h'
    rw [lookupAcc_updateAcc] at h'
    by_cases he : e' = e
    · rw [if_pos he, he, hl] at h'
      have hinj := Option.some.inj h'
      subst hinj
      have hb := hbal e a hl
      simp only [txnSum_append, txnSum_singleton, purchaseRow, he]
      split_ifs with hc
      · omega
      · exact absurd trivial hc
    · rw [if_neg he] at h'
      have hb := hbal e' a' h'
      have he' : ¬ e = e' := fun hee => he hee.symm
      simp only [txnSum_append, txnSum_singleton, purchaseRow, if_neg he']
      omega
  · intro e' h'
    rw [lookupAcc_updateAcc] at h'
    by_cases he : e' = e
    · rw [if_pos he, he, hl] at h'
      simp at h'
    · rw [if_neg he] at h'
      have hz := hnone e' h'
      have he' : ¬ e = e' := fun hee => he hee.symm
      simp only [txnSum_append, txnSum_singleton, purchaseRow, if_neg he']
      omega

theorem runOps_ledgerInv (ops : List LedgerOp) :
    ∀ db : DB, LedgerInv db → creditsSafe db ops = true →
      LedgerInv (runOps db ops) := by
  induction ops with
  | nil =>
      intro db h _
      exact h
  | cons op rest ih =>
      intro db h hsafe
      rw [creditsSafe, Bool.and_eq_true] at hsafe
      cases op with
      | create e =>
          exact ih (applyOp db (LedgerOp.create e))
            (ledgerInv_create db e h) hsafe.2
      | deduct e =>
          exact ih (applyOp db (LedgerOp.deduct e))
            (ledgerInv_deduct db e h) hsafe.2
      | credit e amount d sid =>
          exact ih (applyOp db (LedgerOp.credit e amount d sid))
            (ledgerInv_credit db e amount d sid h
              (by simpa [creditOk] using hsafe.1)) hsafe.2

/-- Sanity check tying the interleaving model to the embedded
deductToken: one thread run alone, statement by statement, resolves the
same boolean and leaves the same row as the sequential function (the
row model carries no transaction table, so the log-failure variant is
the one compared). -/
theorem runSched_single_matches_deductToken (r : Row) :
    (runSched [true, true] r { pc := 0, result := none }
        { pc := 0, result := none }).2.1.result =
      some (deductToken false
        { users := [("u", { balance := r.tokens, totalUsed := r.totalUsed })],
          txns := [] } "u").1 ∧
    lookupAcc (deductToken false
        { users := [("u", { balance := r.tokens, totalUsed := r.totalUsed })],
          txns := [] } "u").2.users "u" =
      some { balance := (runSched [true, true] r { pc := 0, result := none }
               { pc := 0, result := none }).1.tokens,
             totalUsed := (runSched [true, true] r { pc := 0, result := none }
               { pc := 0, result := none }).1.totalUsed } := by
  by_cases hle : r.tokens ≤ 0
  · simp [runSched, dstep, hle, deductToken, lookupAcc]
  · have hpos : 0 < r.tokens := not_le.mp hle
    simp [runSched, dstep, hle, hpos, deductToken, lookupAcc, updateAcc,
      not_le.mpr hpos]

/-! ## Claims -/

/-- C1: the claim says a second credit with the same externalEventId is
a no-op. The code has no idempotency guard: addTokens never consults
stripe_session_id, so replaying the same checkout.session.completed
event credits the balance again. Starting from balance 25, two
deliveries of the same 100-token event with session id evt_1 leave
balance 225, not the 125 a single application produces. -/
theorem addTokens_replay_double_credit :
    lookupAcc (addTokens true webhookDb "u" 100
        "Stripe purchase - 100 package" (some "evt_1")).2.users "u" =
      some { balance := 125, totalUsed := 0 } ∧
    lookupAcc (addTokens true (addTokens true webhookDb "u" 100
        "Stripe purchase - 100 package" (some "evt_1")).2 "u" 100
        "Stripe purchase - 100 package" (some "evt_1")).2.users "u" =
      some { balance := 225, totalUsed := 0 } ∧
    ¬ ((225 : Int) = 125) := by decide

/-- C2: the claim says a failed generation after a successful deduct
triggers a +1 refund credit and a 500 carrying the original error. In
the source, userEmail is const-declared inside the try block, so the
catch block raises a ReferenceError at its first use of userEmail: the
refund call is dead code and no response is sent. Concretely, a user
with balance 5 whose gemini call throws ends at balance 4 with only the
usage row logged, no refund row, and no HTTP status. -/
theorem generate_catch_block_reference_error :
    generateEmoji genDb0 true (some "a@x.com") true true =
      { resp := GenResp.crashNoResponse,
        db := { users := [("a@x.com", { balance := 4, totalUsed := 1 })],
                txns := [usageRow "a@x.com"] },
        geminiCalled := true } ∧
    GenResp.status GenResp.crashNoResponse = none := by decide

/-- C3 counterexample: immediately after account creation the stored
balance is 25 while the transaction log already holds the +25 bonus
row, so 25-plus-sum is 50, not the stored 25. -/
theorem create_breaks_25_plus_sum_cex :
    lookupAcc (runOps emptyDB [LedgerOp.create "u"]).users "u" =
      some { balance := 25, totalUsed := 0 } ∧
    txnSum (runOps emptyDB [LedgerOp.create "u"]).txns "u" = 25 ∧
    ¬ ((25 : Int) = 25 + 25) := by decide

/-- C3 amended: after any finite sequence of account-creation, deduct
and credit operations in which every credit targets an account row that
already exists, each stored balance equals the plain sum of the amounts
of that account's Transaction rows — the starting 25 is itself the
bonus row, so it is not added a second time. -/
theorem balance_reconstructable_from_log (ops : List LedgerOp)
    (hsafe : creditsSafe emptyDB ops = true) (e : String) (a : Account)
    (h : lookupAcc (runOps emptyDB ops).users e = some a) :
    a.balance = txnSum (runOps emptyDB ops).txns e :=
  (runOps_ledgerInv ops emptyDB ledgerInv_empty hsafe).1 e a h

/-- C3 witness: create, one deduct and one 10-token purchase leave
balance 34, which equals the sum 25 - 1 + 10 over the log. -/
theorem balance_reconstructable_from_log_witness :
    (34 : Int) = txnSum (runOps emptyDB demoOps).txns "u" := by
  have h := balance_reconstructable_from_log demoOps (by decide) "u"
    { balance := 34, totalUsed := 1 } (by decide)
  simpa using h

/-- C4: deduct on a missing row or balance at most 0 resolves false and
changes nothing; deduct on a positive balance resolves true, lowers the
balance by exactly 1, raises totalUsed by exactly 1 and appends exactly
the one usage row of amount -1. -/
theorem deductToken_spec (db : DB) (email : String) :
    ((lookupAcc db.users email = none ∨
        ∃ a, lookupAcc db.users email = some a ∧ a.balance ≤ 0) →
      deductToken true db email = (false, db)) ∧
    (∀ a, lookupAcc db.users email = some a → 0 < a.balance →
      (deductToken true db email).1 = true ∧
      lookupAcc (deductToken true db email).2.users email =
        some { balance := a.balance - 1, totalUsed := a.totalUsed + 1 } ∧
      (deductToken true db email).2.txns = db.txns ++ [usageRow email]) := by
  constructor
  · rintro (h | ⟨a, h, hle⟩)
    · exact deductToken_no_row true db email h
    · exact deductToken_nonpos true db email a h hle
  · intro a h hpos
    rw [deductToken_pos_logged db email a h hpos]
    refine ⟨rfl, ?_, rfl⟩
    rw [lookupAcc_updateAcc]
    simp [h]

/-- C4 witness: deduct on an absent row resolves false with the
database untouched; deduct on balance 5 resolves true leaving balance 4,
totalUsed 1 and the one appended usage row. -/
theorem deductToken_spec_witness :
    deductToken true emptyDB "nobody@x.com" = (false, emptyDB) ∧
    (deductToken true genDb0 "a@x.com").1 = true ∧
    lookupAcc (deductToken true genDb0 "a@x.com").2.users "a@x.com" =
      some { balance := 4, totalUsed := 1 } ∧
    (deductToken true genDb0 "a@x.com").2.txns =
      genDb0.txns ++ [usageRow "a@x.com"] := by
  refine ⟨(deductToken_spec emptyDB "nobody@x.com").1 (Or.inl (by decide)), ?_⟩
  have h := (deductToken_spec genDb0 "a@x.com").2
    { balance := 5, totalUsed := 0 } (by decide) (by decide)
  refine ⟨h.1, ?_, h.2.2⟩
  have h2 := h.2.1
  simpa using h2

/-- C5 counterexample: credit of 10 for a user with no account row: the
UPDATE matches nothing, the follow-up getUserTokens creates the row
with the 25-token welcome bonus, and the call resolves balance 25 — the
balance did not increase by the credited amount 10. -/
theorem addTokens_missing_row_cex :
    (addTokens true emptyDB "u" 10 "Token purchase" none).1 = some (25, 0) ∧
    lookupAcc (addTokens true emptyDB "u" 10 "Token purchase" none).2.users "u" =
      some { balance := 25, totalUsed := 0 } ∧
    ¬ ((25 : Int) = 0 + 10) := by decide

/-- C5 amended: for a user whose account row exists, credit increases
the stored balance by exactly the amount and resolves the updated
balance and totalUsed; for a missing row the silent no-op UPDATE plus
account creation yields balance 25 regardless of the amount. -/
theorem addTokens_existing_adds_amount (db : DB) (email : String)
    (amount : Int) (d : String) (sid : Option String) (a : Account)
    (h : lookupAcc db.users email = some a) :
    (addTokens true db email amount d sid).1 =
      some (a.balance + amount, a.totalUsed) ∧
    lookupAcc (addTokens true db email amount d sid).2.users email =
      some { balance := a.balance + amount, totalUsed := a.totalUsed } := by
  rw [addTokens_existing db email amount d sid a h]
  refine ⟨rfl, ?_⟩
  rw [lookupAcc_updateAcc]
  simp [h]

/-- C5 witness: crediting 7 to a user holding 5 tokens resolves
balance 12. -/
theorem addTokens_existing_adds_amount_witness :
    (addTokens true genDb0 "a@x.com" 7 "Token purchase" none).1 =
      some (12, 0) := by
  have h := addTokens_existing_adds_amount genDb0 "a@x.com" 7
    "Token purchase" none { balance := 5, totalUsed := 0 } (by decide)
  simpa using h.1

/-- C6 counterexample: the refund-shaped credit (no externalEventId,
description Refund - Generation failed) is logged with kind purchase,
not refund or bonus: addTokens hard-codes the type purchase. -/
theorem refund_credit_kind_purchase_cex :
    (addTokens true genDb0 "a@x.com" 1 "Refund - Generation failed"
        none).2.txns =
      [{ userEmail := "a@x.com", kind := TxKind.purchase, amount := 1,
         description := "Refund - Generation failed",
         stripeSessionId := none }] ∧
    TxKind.purchase ≠ TxKind.refund ∧ TxKind.purchase ≠ TxKind.bonus := by
  decide

/-- C6 amended: every Transaction row appended by credit has kind
purchase, whether or not an externalEventId is supplied; bonus rows
come only from account creation, and kind refund is never written. -/
theorem addTokens_kind_always_purchase (db : DB) (email : String)
    (amount : Int) (d : String) (sid : Option String) (a : Account)
    (h : lookupAcc db.users email = some a) :
    (addTokens true db email amount d sid).2.txns =
      db.txns ++ [purchaseRow email amount d sid] := by
  rw [addTokens_existing db email amount d sid a h]

/-- C6 witness: the concrete refund credit of +1 appends exactly one
purchase-kind row. -/
theorem addTokens_kind_always_purchase_witness :
    (addTokens true genDb0 "a@x.com" 1 "Refund - Generation failed"
        none).2.txns =
      genDb0.txns ++
        [purchaseRow "a@x.com" 1 "Refund - Generation failed" none] :=
  addTokens_kind_always_purchase genDb0 "a@x.com" 1
    "Refund - Generation failed" none { balance := 5, totalUsed := 0 }
    (by decide)

/-- C7 counterexample: when the usage-row INSERT fails after
deductToken has already committed its balance UPDATE, the call still
resolves true with the balance decremented and no audit row — an error
path leaving a committed balance write with its audit row missing,
which the claim says cannot happen. -/
theorem deduct_commit_audit_missing_cex :
    (deductToken false genDb0 "a@x.com").1 = true ∧
    lookupAcc (deductToken false genDb0 "a@x.com").2.users "a@x.com" =
      some { balance := 4, totalUsed := 1 } ∧
    (deductToken false genDb0 "a@x.com").2.txns = [] := by decide

/-- C7 amended: every balance mutation appends exactly one audit row,
but as a separate operation outside the transactional scope of the
balance write: deduct commits before logging and swallows a log
failure, the credit UPDATE persists even when its log INSERT rejects,
and the creation bonus row is fire-and-forget — so a failed append
leaves the balance write committed without its audit row. -/
theorem audit_row_outside_balance_write_scope (db : DB)
    (email e2 : String) (a : Account) (amount : Int) (d : String)
    (sid : Option String) (h : lookupAcc db.users email = some a)
    (hpos : 0 < a.balance) (h2 : lookupAcc db.users e2 = none) :
    ((deductToken true db email).2.txns.length = db.txns.length + 1) ∧
    ((addTokens true db email amount d sid).2.txns.length =
      db.txns.length + 1) ∧
    ((getUserTokens true db e2).2.txns.length = db.txns.length + 1) ∧
    ((deductToken false db email).1 = true ∧
      (deductToken false db email).2.txns = db.txns ∧
      lookupAcc (deductToken false db email).2.users email =
        some { balance := a.balance - 1, totalUsed := a.totalUsed + 1 }) ∧
    ((addTokens false db email amount d sid).1 = none ∧
      (addTokens false db email amount d sid).2.txns = db.txns ∧
      lookupAcc (addTokens false db email amount d sid).2.users email =
        some { balance := a.balance + amount, totalUsed := a.totalUsed }) ∧
    ((getUserTokens false db e2).2.txns = db.txns ∧
      lookupAcc (getUserTokens false db e2).2.users e2 =
        some { balance := 25, totalUsed := 0 }) := by
  refine ⟨?_, ?_, ?_, ⟨?_, ?_, ?_⟩, ⟨?_, ?_, ?_⟩, ⟨?_, ?_⟩⟩
  · rw [deductToken_pos_logged db email a h hpos]
    simp
  · rw [addTokens_existing db email amount d sid a h]
    simp
  · rw [getUserTokens_new db e2 h2]
    simp
  · rw [deductToken_pos_unlogged db email a h hpos]
  · rw [deductToken_pos_unlogged db email a h hpos]
  · rw [deductToken_pos_unlogged db email a h hpos]
    dsimp only
    rw [lookupAcc_updateAcc]
    simp [h]
  · rw [addTokens_log_fails]
  · rw [addTokens_log_fails]
  · rw [addTokens_log_fails]
    dsimp only
    rw [lookupAcc_updateAcc]
    simp [h]
  · rw [getUserTokens_new_unlogged db e2 h2]
  · rw [getUserTokens_new_unlogged db e2 h2]
    dsimp only
    rw [lookupAcc_append_none db.users _ e2 h2, lookupAcc_singleton]
    simp

/-- C7 witness: the log-failure branch of deduct at a concrete state
resolves true while leaving the transaction table unchanged. -/
theorem audit_row_outside_balance_write_scope_witness :
    (deductToken false genDb0 "a@x.com").1 = true ∧
    (deductToken false genDb0 "a@x.com").2.txns = genDb0.txns := by
  have h := audit_row_outside_balance_write_scope genDb0 "a@x.com" "v"
    { balance := 5, totalUsed := 0 } 3 "Token purchase" none
    (by decide) (by decide) (by decide)
  exact ⟨h.2.2.2.1.1, h.2.2.2.1.2.1⟩

/-- C8: a generate-emoji request for an existing account with balance
at most 0 responds 402 with the machine-readable tokensNeeded flag set,
the external generation call is never made, and the database is
untouched — whatever the state of the gemini service. -/
theorem insufficient_balance_402_no_external_call (db : DB)
    (email : String) (a : Account) (g f : Bool)
    (h : lookupAcc db.users email = some a) (hle : a.balance ≤ 0) :
    (generateEmoji db true (some email) g f).resp =
      GenResp.insufficientTokens true ∧
    GenResp.status (generateEmoji db true (some email) g f).resp =
      some 402 ∧
    (generateEmoji db true (some email) g f).geminiCalled = false ∧
    (generateEmoji db true (some email) g f).db = db := by
  have hg : generateEmoji db true (some email) g f =
      { resp := GenResp.insufficientTokens true, db := db,
        geminiCalled := false } := by
    simp [generateEmoji, getUserTokens_existing true db email a h, hle]
  rw [hg]
  exact ⟨rfl, rfl, rfl, rfl⟩

/-- C8 witness: a user at balance 0 gets the 402 with tokensNeeded and
no gemini call. -/
theorem insufficient_balance_402_no_external_call_witness :
    (generateEmoji poorDb true (some "p") true false).resp =
      GenResp.insufficientTokens true ∧
    (generateEmoji poorDb true (some "p") true false).geminiCalled =
      false := by
  have h := insufficient_balance_402_no_external_call poorDb "p"
    { balance := 0, totalUsed := 25 } true false (by decide) (by decide)
  exact ⟨h.1, h.2.2.1⟩

/-- C9: across every interleaving (at per-SQL-statement granularity) of
two concurrent deductToken calls against the same account holding
exactly 1 token, exactly one call resolves true, the other false, and
the final balance is 0 — the guarded UPDATE (tokens > 0) with its
changes check decides the race, with no application-level lock. -/
theorem concurrent_deduct_one_success : schedules2.all raceOk = true := by
  decide

/-- C10: with a positive balance and geminiService undefined, the
handler deducts the token, then returns 500 by an early return rather
than a throw: the catch block never runs, no refund row is written, and
the net effect is balance down 1 with no image. -/
theorem gemini_unavailable_token_lost (db : DB) (email : String)
    (a : Account) (f : Bool) (h : lookupAcc db.users email = some a)
    (hpos : 0 < a.balance) :
    (generateEmoji db true (some email) false f).resp =
      GenResp.geminiUnavailable ∧
    GenResp.status (generateEmoji db true (some email) false f).resp =
      some 500 ∧
    (generateEmoji db true (some email) false f).geminiCalled = false ∧
    lookupAcc (generateEmoji db true (some email) false f).db.users email =
      some { balance := a.balance - 1, totalUsed := a.totalUsed + 1 } ∧
    (generateEmoji db true (some email) false f).db.txns =
      db.txns ++ [usageRow email] := by
  have hne : ¬ a.balance ≤ 0 := not_le.mpr hpos
  have hg : generateEmoji db true (some email) false f =
      { resp := GenResp.geminiUnavailable,
        db := { users := updateAcc (fun x =>
                  { x with balance := x.balance - 1,
                           totalUsed := x.totalUsed + 1 }) db.users email,
                txns := db.txns ++ [usageRow email] },
        geminiCalled := false } := by
    simp [generateEmoji, getUserTokens_existing true db email a h, hne,
      deductToken_pos_logged db email a h hpos]
  rw [hg]
  refine ⟨rfl, rfl, rfl, ?_, rfl⟩
  rw [lookupAcc_updateAcc]
  simp [h]

/-- C10 witness: a user at balance 5 hitting the undefined-service
guard ends at balance 4, totalUsed 1, with only the usage row. -/
theorem gemini_unavailable_token_lost_witness :
    (generateEmoji genDb0 true (some "a@x.com") false false).resp =
      GenResp.geminiUnavailable ∧
    lookupAcc (generateEmoji genDb0 true
        (some "a@x.com") false false).db.users "a@x.com" =
      some { balance := 4, totalUsed := 1 } := by
  have h := gemini_unavailable_token_lost genDb0 "a@x.com"
    { balance := 5, totalUsed := 0 } false (by decide) (by decide)
  refine ⟨h.1, ?_⟩
  have h2 := h.2.2.2.1
  simpa using h2

end EmojiGen
